import Mathlib

/-!
Verification of the export driver in
machine-learning/export/immich_model_exporter/run.py.

The driver iterates a hardcoded list of model identifier strings; for each
entry it prints a progress line, invokes
subprocess.check_call(["python", "export.py", model, "openclip"]), and on
any exception prints a failure line and continues with the next entry.

We embed the driver shallowly.  The observable behaviour of a run is a
trace of events: output lines written to the console and external
invocation attempts.  The environment is an oracle assigning to each
invocation index an outcome: success, abnormal process exit
(subprocess.CalledProcessError), or launch failure (e.g. OSError), the
latter two carrying the detail string that str(e) would render.
Exception propagation is made explicit by threading an Except value:
a primitive that raises returns Except.error, the try/except of the loop
body converts it back to Except.ok, and the main loop aborts as soon as a
body step returns Except.error — so the fact that the loop always reaches
the end is a theorem, not a modelling assumption.
-/

/-- A console output line of the driver, structured.  progress m is the
line printed before invoking the exporter for model m; failure m d is the
line printed by the except clause, naming the model m and the exception
detail d. -/
inductive Line where
  | progress (model : String)
  | failure (model : String) (detail : String)
deriving DecidableEq, Repr

/-- Rendering of a structured line to the exact console text produced by
the two print statements of run.py. -/
def renderLine : Line → String
  | Line.progress m => "Exporting model " ++ m
  | Line.failure m d => "Failed to export model " ++ m ++ ": " ++ d

/-- An observable event of a run: a console output line, or an external
invocation attempt with its argument vector. -/
inductive Event where
  | output (l : Line)
  | invoke (args : List String)
deriving DecidableEq, Repr

/-- The outcome of one external invocation attempt, chosen by the
environment: the spawned process succeeded; the process ran but exited
with failure (subprocess.CalledProcessError, detail the rendered
exception); or the process could not be launched at all (e.g. OSError,
detail the rendered exception). -/
inductive Outcome where
  | success
  | exitFailure (detail : String)
  | launchFailure (detail : String)
deriving DecidableEq, Repr

/-- Whether an outcome is a failure of either kind. -/
def Outcome.isFail : Outcome → Bool
  | Outcome.success => false
  | Outcome.exitFailure _ => true
  | Outcome.launchFailure _ => true

/-- The argument vector of the command the driver launches for a model
identifier: ["python", "export.py", model, "openclip"] in run.py. -/
def exportCmd (model : String) : List String :=
  ["python", "export.py", model, "openclip"]

/-- Embedding of print: emits one output line, never raises. -/
def printLine (l : Line) : List Event :=
  [Event.output l]

/-- Embedding of subprocess.check_call: the invocation attempt is made
(recorded as an invoke event); on success it returns normally, on a
non-zero exit it raises CalledProcessError, and on a launch failure it
raises the launch exception — both modelled as Except.error carrying the
detail string str(e). -/
def check_call (args : List String) (o : Outcome) : List Event × Except String Unit :=
  match o with
  | Outcome.success => ([Event.invoke args], Except.ok ())
  | Outcome.exitFailure d => ([Event.invoke args], Except.error d)
  | Outcome.launchFailure d => ([Event.invoke args], Except.error d)

/-- The try block of the loop body: print the progress line, then call
check_call; an exception from check_call propagates out of the block. -/
def tryBlock (model : String) (o : Outcome) : List Event × Except String Unit :=
  let evs1 := printLine (Line.progress model)
  let (evs2, r) := check_call (exportCmd model) o
  (evs1 ++ evs2, r)

/-- One iteration of the for loop: the try block, with the generic
except clause catching any exception e and printing the failure line
naming the model and the detail of e, after which the iteration
completes normally. -/
def loopBody (model : String) (o : Outcome) : List Event × Except String Unit :=
  let (evs, r) := tryBlock model o
  match r with
  | Except.ok () => (evs, Except.ok ())
  | Except.error d => (evs ++ printLine (Line.failure model d), Except.ok ())

/-- The for loop over the model list, starting at invocation index i.
If an iteration ended with an uncaught exception the loop would abort
there with that exception; otherwise it continues with the next entry. -/
def mainLoop (oracle : Nat → Outcome) : Nat → List String → List Event × Except String Unit
  | _, [] => ([], Except.ok ())
  | i, model :: rest =>
    let (evs, r) := loopBody model (oracle i)
    match r with
    | Except.error d => (evs, Except.error d)
    | Except.ok () =>
      let (evs2, r2) := mainLoop oracle (i + 1) rest
      (evs ++ evs2, r2)

/-- A full run of the driver on a given active model list, under a given
environment oracle: the main guard of run.py simply runs the loop from
the first entry. -/
def runMain (oracle : Nat → Outcome) (ms : List String) : List Event × Except String Unit :=
  mainLoop oracle 0 ms

/-- The active model list hardcoded in run.py (the uncommented
entries). -/
def models : List String :=
  [ "ViT-SO400M-14-SigLIP2__webli"
  , "ViT-SO400M-14-SigLIP2-378__webli"
  , "ViT-SO400M-16-SigLIP2-256__webli"
  , "ViT-SO400M-16-SigLIP2-384__webli"
  , "ViT-SO400M-16-SigLIP2-512__webli" ]

/-- The invocation attempts of a trace, in order. -/
def invocations (evs : List Event) : List (List String) :=
  evs.filterMap fun e =>
    match e with
    | Event.invoke a => some a
    | _ => none

/-- The console output lines of a trace, in order. -/
def outputs (evs : List Event) : List Line :=
  evs.filterMap fun e =>
    match e with
    | Event.output l => some l
    | _ => none

/-- Whether a line is a failure line naming model m. -/
def isFailureLineFor (m : String) : Line → Bool
  | Line.failure n _ => n == m
  | _ => false

/-- Modelled from the spec: the block of events one list entry should
contribute — first the progress line identifying the model, then the
invocation attempt, then, exactly when the invocation failed, one failure
line naming the model and the failure detail, and nothing else. -/
def specBlock (model : String) (o : Outcome) : List Event :=
  match o with
  | Outcome.success =>
    [Event.output (Line.progress model), Event.invoke (exportCmd model)]
  | Outcome.exitFailure d =>
    [Event.output (Line.progress model), Event.invoke (exportCmd model),
     Event.output (Line.failure model d)]
  | Outcome.launchFailure d =>
    [Event.output (Line.progress model), Event.invoke (exportCmd model),
     Event.output (Line.failure model d)]

/-- Modelled from the spec: the whole trace of a run is the concatenation
of the per-entry blocks, in list order, starting at invocation index i. -/
def specTrace (oracle : Nat → Outcome) : Nat → List String → List Event
  | _, [] => []
  | i, model :: rest => specBlock model (oracle i) ++ specTrace oracle (i + 1) rest

/-- Modelled from the spec: the failure lines a run should emit — one per
failing index, in order, naming that entry and carrying its detail. -/
def specFailures (oracle : Nat → Outcome) : Nat → List String → List Line
  | _, [] => []
  | i, model :: rest =>
    (match oracle i with
     | Outcome.success => []
     | Outcome.exitFailure d => [Line.failure model d]
     | Outcome.launchFailure d => [Line.failure model d]) ++
    specFailures oracle (i + 1) rest

/-- Whether a line is a failure line (of any model). -/
def Line.isFailureLine : Line → Bool
  | Line.failure _ _ => true
  | Line.progress _ => false

section Lemmas

/-- The loop never aborts and its trace is the concatenation of the
per-entry blocks. -/
theorem mainLoop_eq_spec (oracle : Nat → Outcome) :
    ∀ (i : Nat) (ms : List String),
      mainLoop oracle i ms = (specTrace oracle i ms, Except.ok ()) := by
  intro i ms
  induction ms generalizing i with
  | nil => rfl
  | cons m rest ih =>
    cases h : oracle i <;>
      simp [mainLoop, loopBody, tryBlock, check_call, printLine, specTrace, specBlock, h, ih]

/-- Invocations of a per-entry block: exactly the one command for its
model. -/
theorem invocations_specBlock (m : String) (o : Outcome) :
    invocations (specBlock m o) = [exportCmd m] := by
  cases o <;> rfl

/-- Invocations of the spec trace: one command per entry, in order. -/
theorem invocations_specTrace (oracle : Nat → Outcome) :
    ∀ (i : Nat) (ms : List String),
      invocations (specTrace oracle i ms) = ms.map exportCmd := by
  intro i ms
  induction ms generalizing i with
  | nil => rfl
  | cons m rest ih =>
    simp only [specTrace, invocations, List.filterMap_append, List.map_cons]
    rw [show (specBlock m (oracle i)).filterMap _ = invocations (specBlock m (oracle i)) from rfl,
      invocations_specBlock]
    simp [invocations] at ih
    simp [ih]

/-- The failure lines of a per-entry block. -/
theorem failures_specBlock (m : String) (o : Outcome) :
    (outputs (specBlock m o)).filter Line.isFailureLine =
      (match o with
       | Outcome.success => []
       | Outcome.exitFailure d => [Line.failure m d]
       | Outcome.launchFailure d => [Line.failure m d]) := by
  cases o <;> rfl

/-- The failure lines of the spec trace are exactly the spec failures. -/
theorem failures_specTrace (oracle : Nat → Outcome) :
    ∀ (i : Nat) (ms : List String),
      (outputs (specTrace oracle i ms)).filter Line.isFailureLine =
        specFailures oracle i ms := by
  intro i ms
  induction ms generalizing i with
  | nil => rfl
  | cons m rest ih =>
    simp only [specTrace, specFailures, outputs, List.filterMap_append, List.filter_append]
    rw [show ((specBlock m (oracle i)).filterMap _).filter Line.isFailureLine =
        (outputs (specBlock m (oracle i))).filter Line.isFailureLine from rfl,
      failures_specBlock]
    simp [outputs] at ih
    simp [ih]

end Lemmas

/-- Helper: invocations of a full run are exactly the per-entry commands,
in list order. -/
theorem invocations_runMain (oracle : Nat → Outcome) (ms : List String) :
    invocations (runMain oracle ms).1 = ms.map exportCmd := by
  rw [runMain, mainLoop_eq_spec]
  exact invocations_specTrace oracle 0 ms

/-- Helper: the oracle only matters on the indices the list actually
reaches. -/
theorem mainLoop_congr (o1 o2 : Nat → Outcome) :
    ∀ (i : Nat) (ms : List String),
      (∀ j, j < ms.length → o1 (i + j) = o2 (i + j)) →
      mainLoop o1 i ms = mainLoop o2 i ms := by
  intro i ms
  induction ms generalizing i with
  | nil => intro _; rfl
  | cons m rest ih =>
    intro hagree
    have h0 : o1 i = o2 i := by simpa using hagree 0 (by simp)
    have hrest : ∀ j, j < rest.length → o1 (i + 1 + j) = o2 (i + 1 + j) := by
      intro j hj
      have heq : i + 1 + j = i + (j + 1) := by omega
      rw [heq]
      exact hagree (j + 1) (by simpa using Nat.succ_lt_succ hj)
    simp [mainLoop, h0, ih (i + 1) hrest]

/-- C1: a run over a list of N active identifiers issues exactly N
invocation attempts, one per identifier and in list order: the sequence
of invocation argument vectors equals the list mapped through the
per-model command. -/
theorem exportDriver_invocations_in_order (oracle : Nat → Outcome) (ms : List String) :
    invocations (runMain oracle ms).1 = ms.map exportCmd := by
  rw [runMain, mainLoop_eq_spec]
  exact invocations_specTrace oracle 0 ms

/-- C2: if the i-th invocation fails (either failure kind), the driver
still issues the (i+1)-th invocation, with the right command, and the run
still completes normally: a per-entry failure never terminates the loop
or the run. -/
theorem exportDriver_failure_no_shortcircuit (oracle : Nat → Outcome) (ms : List String)
    (i : Nat) (h : i + 1 < ms.length) (_hfail : (oracle i).isFail = true) :
    (invocations (runMain oracle ms).1)[i + 1]? = some (exportCmd ms[i + 1]) ∧
      (runMain oracle ms).2 = Except.ok () := by
  refine ⟨?_, by rw [runMain, mainLoop_eq_spec]⟩
  rw [invocations_runMain, List.getElem?_map, List.getElem?_eq_getElem h]
  rfl

/-- Witness for C2 at a concrete run where the first invocation fails. -/
theorem exportDriver_failure_no_shortcircuit_witness :
    (invocations (runMain (fun _ => Outcome.exitFailure "boom") ["A", "B"]).1)[1]? =
        some (exportCmd "B") ∧
      (runMain (fun _ => Outcome.exitFailure "boom") ["A", "B"]).2 = Except.ok () :=
  exportDriver_failure_no_shortcircuit (fun _ => Outcome.exitFailure "boom") ["A", "B"] 0
    (by decide) (by decide)

/-- C3: the failure lines a run emits are exactly one line per failing
index, in order, each naming that entry and its failure detail — so a
failing invocation yields exactly one failure message naming its model,
and a successful one yields none. -/
theorem exportDriver_failure_lines (oracle : Nat → Outcome) (ms : List String) :
    (outputs (runMain oracle ms).1).filter Line.isFailureLine = specFailures oracle 0 ms := by
  rw [runMain, mainLoop_eq_spec]
  exact failures_specTrace oracle 0 ms

/-- C4: every invocation a run launches has the argument shape
[export-tool, model-identifier, mode-string]: the fixed interpreter and
tool, the identifier verbatim, and the fixed mode string "openclip". -/
theorem exportDriver_arg_shape (oracle : Nat → Outcome) (ms : List String)
    (args : List String) (h : args ∈ invocations (runMain oracle ms).1) :
    ∃ m ∈ ms, args = ["python", "export.py", m, "openclip"] := by
  rw [invocations_runMain] at h
  obtain ⟨m, hm, rfl⟩ := List.mem_map.mp h
  exact ⟨m, hm, rfl⟩

/-- Witness for C4 at a concrete one-element run. -/
theorem exportDriver_arg_shape_witness :
    ∃ m ∈ ["A"], exportCmd "A" = ["python", "export.py", m, "openclip"] :=
  exportDriver_arg_shape (fun _ => Outcome.success) ["A"] (exportCmd "A") (by decide)

/-- Environment for the spec scenario: only the second invocation (the
one for B) fails. -/
def oracleABC : Nat → Outcome :=
  fun i => if i = 1 then Outcome.exitFailure "exit status 1" else Outcome.success

/-- C5: on the active list [A, B, C] where only the invocation for B
fails, all three invocations are attempted in order A, B, C, and the log
is exactly progress A, progress B, failure B with its detail, progress C,
with no failure line for A or C. -/
theorem exportDriver_scenario_ABC :
    invocations (runMain oracleABC ["A", "B", "C"]).1 =
        [exportCmd "A", exportCmd "B", exportCmd "C"] ∧
      outputs (runMain oracleABC ["A", "B", "C"]).1 =
        [Line.progress "A", Line.progress "B",
         Line.failure "B" "exit status 1", Line.progress "C"] ∧
      (outputs (runMain oracleABC ["A", "B", "C"]).1).map renderLine =
        ["Exporting model A", "Exporting model B",
         "Failed to export model B: exit status 1", "Exporting model C"] := by
  refine ⟨rfl, rfl, rfl⟩

/-- C6: the whole trace of a run is, entry by entry in list order, one
progress line identifying the model, emitted before that entry's
invocation attempt, then exactly when the invocation failed one failure
line, and nothing else. -/
theorem exportDriver_trace_structure (oracle : Nat → Outcome) (ms : List String) :
    (runMain oracle ms).1 = specTrace oracle 0 ms := by
  rw [runMain, mainLoop_eq_spec]

/-- C7: an abnormal process exit and a launch failure with the same
detail are indistinguishable to the driver: the loop iteration produces
identical events and identical control flow for both, and in both cases
the output is the progress line followed by the one failure line naming
the model and the detail. -/
theorem exportDriver_failure_kinds_same (m : String) (d : String) :
    loopBody m (Outcome.exitFailure d) = loopBody m (Outcome.launchFailure d) ∧
      outputs (loopBody m (Outcome.exitFailure d)).1 =
        [Line.progress m, Line.failure m d] :=
  ⟨rfl, rfl⟩

/-- C8: whatever outcome every invocation has, the driver itself
completes normally after the loop: no invocation failure is re-surfaced
as the run's own result. -/
theorem exportDriver_completes_normally (oracle : Nat → Outcome) (ms : List String) :
    (runMain oracle ms).2 = Except.ok () := by
  rw [runMain, mainLoop_eq_spec]

/-- C9: a run over the empty active list performs zero invocations and
emits zero output lines. -/
theorem exportDriver_empty_run (oracle : Nat → Outcome) :
    invocations (runMain oracle []).1 = [] ∧ outputs (runMain oracle []).1 = [] :=
  ⟨rfl, rfl⟩

/-- C10: the driver is deterministic in its inputs: two runs over the
same list whose environments give the same outcome to every reached
invocation index produce the identical trace (same invocations, same
output lines) and the identical result. -/
theorem exportDriver_deterministic (o1 o2 : Nat → Outcome) (ms : List String)
    (h : ∀ i, i < ms.length → o1 i = o2 i) :
    runMain o1 ms = runMain o2 ms := by
  have hmain := mainLoop_congr o1 o2 0 ms (by intro j hj; simpa using h j hj)
  simpa [runMain] using hmain

/-- First environment for the C10 witness. -/
def oracleW1 : Nat → Outcome := fun _ => Outcome.success

/-- Second environment for the C10 witness: agrees with the first on the
one reached index, differs beyond the list. -/
def oracleW2 : Nat → Outcome :=
  fun i => if i < 1 then Outcome.success else Outcome.exitFailure "late"

/-- Witness for C10 at a concrete one-element run. -/
theorem exportDriver_deterministic_witness :
    runMain oracleW1 ["A"] = runMain oracleW2 ["A"] :=
  exportDriver_deterministic oracleW1 oracleW2 ["A"]
    (by
      intro i hi
      have h0 : i = 0 := by simpa using hi
      subst h0
      rfl)
